import Mathlib

/-!
Verification of the wallet-ledger reconciliation engine of the dataAppBack
backend: the shared fee policy (`lib/paymentUtils`), the purchase orchestrator
(`api/v1/transactions/airtimeController.js`), the payment webhooks
(`webhook/paymentWebhook.js`, `middleware/monnifyMiddleware.js`) and the
reconciliation sync jobs (`jobs/transactionSync.js`,
`jobs/paystackTransactionSync.js`, `dist/jobs/monnifyTransactionSync.js`,
and the NelloByte status job), shallowly embedded as pure Lean functions.
Monetary amounts are naira integers, modelled as `Int`.
-/

namespace DataAppBack

/-- `TransactionStatus` from the Prisma schema. -/
inductive TxStatus
  | PENDING
  | SUCCESS
  | FAILED
  | REVERSED
  deriving DecidableEq, Repr

/-- `TransactionType` from the Prisma schema (the variants the core paths use). -/
inductive TxType
  | WALLET_FUNDING
  | AIRTIME
  | DATA
  | ELECTRICITY
  | CABLE_TV
  | EDUCATION
  | RECHARGE_PIN
  deriving DecidableEq, Repr

/-- The shared fee policy `getWalletCreditAmount` from `lib/paymentUtils`
(src/unnamed/part_018 lines 15-34): `total <= 40` gives 0, `total <= 2540`
gives `total - 40`, `total > 102000` gives `total - 2000`, otherwise
`Math.floor(total * 0.98)`.  For integer naira inputs in the middle tier the
IEEE-754 double computation `Math.floor(total * 0.98)` coincides with the
exact integer `98 * total / 100` (checked exhaustively over 2541..102000),
so the embedding uses exact integer arithmetic. -/
def getWalletCreditAmount (total : Int) : Int :=
  if total ≤ 40 then 0
  else if total ≤ 2540 then total - 40
  else if total > 102000 then total - 2000
  else 98 * total / 100

theorem getWalletCreditAmount_tier2_nonneg (g : Int) (hg : 0 ≤ g) :
    0 ≤ 98 * g / 100 :=
  Int.ediv_nonneg (by linarith) (by norm_num)

theorem getWalletCreditAmount_tier2_le (g : Int) (hg : 0 ≤ g) :
    98 * g / 100 ≤ g := by
  have h : 98 * g / 100 ≤ 100 * g / 100 :=
    Int.ediv_le_ediv (by norm_num) (by linarith)
  have h2 : 100 * g / 100 = g := Int.mul_ediv_cancel_left g (by norm_num)
  omega

/-- Claim C2: the shared fee policy returns 0 for gross at most 40, gross
minus the flat 40 fee up to 2540, the floored 2 percent discount up to
102000, and gross minus the capped 2000 fee above that, with the five
literal example values from the spec. -/
theorem getWalletCreditAmount_spec (g : Int) :
    (g ≤ 40 → getWalletCreditAmount g = 0) ∧
    (40 < g → g ≤ 2540 → getWalletCreditAmount g = g - 40) ∧
    (2540 < g → g ≤ 102000 → getWalletCreditAmount g = 98 * g / 100) ∧
    (102000 < g → getWalletCreditAmount g = g - 2000) ∧
    getWalletCreditAmount 2000 = 1960 ∧
    getWalletCreditAmount 2540 = 2500 ∧
    getWalletCreditAmount 50000 = 49000 ∧
    getWalletCreditAmount 150000 = 148000 ∧
    getWalletCreditAmount 30 = 0 := by
  refine ⟨?_, ?_, ?_, ?_, by decide, by decide, by decide, by decide, by decide⟩
  · intro h; simp [getWalletCreditAmount, h]
  · intro h1 h2
    simp only [getWalletCreditAmount]
    rw [if_neg (by omega), if_pos h2]
  · intro h1 h2
    simp only [getWalletCreditAmount]
    rw [if_neg (by omega), if_neg (by omega), if_neg (by omega)]
  · intro h
    simp only [getWalletCreditAmount]
    rw [if_neg (by omega), if_neg (by omega), if_pos h]

theorem getWalletCreditAmount_spec_witness :
    (40 : Int) < 2000 ∧ (2000 : Int) ≤ 2540 ∧
    getWalletCreditAmount 2000 = 2000 - 40 ∧
    (2540 : Int) < 50000 ∧ (50000 : Int) ≤ 102000 ∧
    getWalletCreditAmount 50000 = 98 * 50000 / 100 :=
  ⟨by decide, by decide,
   (getWalletCreditAmount_spec 2000).2.1 (by decide) (by decide),
   by decide, by decide,
   (getWalletCreditAmount_spec 50000).2.2.1 (by decide) (by decide)⟩

/-- Claim C9: the fee policy is not monotone across the tier-1/tier-2
boundary: gross 2540 credits 2500 while gross 2541 credits only 2490. -/
theorem getWalletCreditAmount_not_monotone :
    (∃ g1 g2 : Int, g1 < g2 ∧ getWalletCreditAmount g2 < getWalletCreditAmount g1) ∧
    getWalletCreditAmount 2540 = 2500 ∧
    getWalletCreditAmount 2541 = 2490 :=
  ⟨⟨2540, 2541, by decide, by decide⟩, by decide, by decide⟩

/-- Claim C10: for nonnegative gross the credit is between 0 and the gross,
so the platform fee is nonnegative and the `Math.max(0, ...)` guard at the
webhook call site (webhook/paymentWebhook.js line 121) is redundant. -/
theorem getWalletCreditAmount_bounds (g : Int) (hg : 0 ≤ g) :
    0 ≤ getWalletCreditAmount g ∧
    getWalletCreditAmount g ≤ g ∧
    max 0 (g - getWalletCreditAmount g) = g - getWalletCreditAmount g := by
  have hb : 0 ≤ getWalletCreditAmount g ∧ getWalletCreditAmount g ≤ g := by
    unfold getWalletCreditAmount
    split_ifs with h1 h2 h3
    · exact ⟨le_refl 0, hg⟩
    · constructor <;> omega
    · constructor <;> omega
    · exact ⟨getWalletCreditAmount_tier2_nonneg g hg,
        getWalletCreditAmount_tier2_le g hg⟩
  exact ⟨hb.1, hb.2, max_eq_right (by omega)⟩

theorem getWalletCreditAmount_bounds_witness :
    0 ≤ getWalletCreditAmount 50000 ∧
    getWalletCreditAmount 50000 ≤ 50000 ∧
    max 0 (50000 - getWalletCreditAmount 50000) = 50000 - getWalletCreditAmount 50000 :=
  getWalletCreditAmount_bounds 50000 (by decide)

/-- A user wallet row: the two fields the core ledger paths mutate. -/
structure Wallet where
  balance : Int
  totalSpent : Int
  deriving DecidableEq, Repr

/-- A ledger transaction row (the fields the core paths touch). -/
structure Txn where
  amount : Int
  type : TxType
  status : TxStatus
  reference : String
  providerReference : Option String
  providerStatus : Option String
  deriving DecidableEq, Repr

/-- The ledger slice a purchase sees: the buyer's wallet (absent if never
created) and the transaction rows. -/
structure PurchaseLedger where
  wallet : Option Wallet
  txns : List Txn
  deriving DecidableEq, Repr

/-- Outcome of the atomic debit block of `purchaseAirtime`
(airtimeController.js lines 57-91): either the thrown
"Insufficient wallet balance" (the prisma transaction rolls back, HTTP 402),
or the created PENDING row after the debit committed. -/
inductive DebitResult
  | insufficient
  | debited (txn : Txn)
  deriving DecidableEq, Repr

/-- The atomic debit block of `purchaseAirtime` (airtimeController.js lines
57-91): look up the wallet; if it is missing or `balance < sellingPrice`
throw (modelled as returning the unchanged ledger, since the prisma
transaction rolls back); otherwise create the PENDING AIRTIME row and in the
same transaction decrement `balance` and increment `totalSpent`. -/
def purchaseAirtimeDebit (s : PurchaseLedger) (sellingPrice : Int) (requestId : String) :
    PurchaseLedger × DebitResult :=
  match s.wallet with
  | none => (s, DebitResult.insufficient)
  | some w =>
    if w.balance < sellingPrice then (s, DebitResult.insufficient)
    else
      let txn : Txn :=
        { amount := sellingPrice, type := TxType.AIRTIME, status := TxStatus.PENDING,
          reference := requestId, providerReference := none, providerStatus := none }
      ({ wallet := some { balance := w.balance - sellingPrice,
                          totalSpent := w.totalSpent + sellingPrice },
         txns := s.txns ++ [txn] },
       DebitResult.debited txn)

/-- Claim C3: when the price exceeds the wallet balance, or no wallet exists,
the debit block rejects with the insufficient-balance error and leaves the
ledger exactly as it was: no wallet field mutated, no transaction row
created. -/
theorem purchaseAirtime_insufficient_balance (s : PurchaseLedger) (price : Int)
    (rid : String)
    (h : s.wallet = none ∨ ∃ w, s.wallet = some w ∧ w.balance < price) :
    purchaseAirtimeDebit s price rid = (s, DebitResult.insufficient) := by
  rcases h with h | ⟨w, hw, hlt⟩
  · simp [purchaseAirtimeDebit, h]
  · simp [purchaseAirtimeDebit, hw, hlt]

theorem purchaseAirtime_insufficient_balance_witness :
    purchaseAirtimeDebit ⟨some ⟨100, 0⟩, []⟩ 500 "AIR-1"
      = (⟨some ⟨100, 0⟩, []⟩, DebitResult.insufficient) :=
  purchaseAirtime_insufficient_balance ⟨some ⟨100, 0⟩, []⟩ 500 "AIR-1"
    (Or.inr ⟨⟨100, 0⟩, rfl, by decide⟩)

/-- The reversal applied on definitive business rejection: one atomic batch
marking the row FAILED and restoring `balance` and `totalSpent`
(airtimeController.js lines 151-164). -/
def reverseDebit (w : Wallet) (txn : Txn) : Wallet × Txn :=
  ({ balance := w.balance + txn.amount, totalSpent := w.totalSpent - txn.amount },
   { txn with status := TxStatus.FAILED })

/-- A JavaScript error as classified by `isNetworkError`: an optional
`error.code` and an `error.message`. -/
structure JsError where
  code : Option String
  message : String
  deriving DecidableEq, Repr

/-- The axios timeout/connection codes listed in `isNetworkError`
(lib/financialSafety, src/unnamed/part_003 line 50). -/
def timeoutCodes : List String :=
  ["ECONNABORTED", "ETIMEDOUT", "ERR_NETWORK", "ECONNRESET", "ENOTFOUND"]

/-- ASCII lowercasing of one character, as `String.toLowerCase` acts on the
ASCII error messages involved. -/
def asciiLower (c : Char) : Char :=
  if 65 ≤ c.toNat ∧ c.toNat ≤ 90 then Char.ofNat (c.toNat + 32) else c

/-- Whether the first list is a prefix of the second. -/
def charsHavePre : List Char → List Char → Bool
  | [], _ => true
  | _ :: _, [] => false
  | a :: as, b :: bs => a == b && charsHavePre as bs

/-- Whether `pat` occurs as a contiguous substring. -/
def charsContain (pat : List Char) : List Char → Bool
  | [] => charsHavePre pat []
  | c :: cs => charsHavePre pat (c :: cs) || charsContain pat cs

/-- JavaScript `s.toLowerCase().includes(pat)` for the ASCII strings in play. -/
def jsLowerIncludes (s pat : String) : Bool :=
  charsContain pat.data (s.data.map asciiLower)

/-- `isNetworkError` from `lib/financialSafety` (src/unnamed/part_003 lines
48-60): code-based detection against `timeoutCodes`, then substring
detection on the lowercased message. -/
def isNetworkError (e : JsError) : Bool :=
  (match e.code with
   | some c => timeoutCodes.contains c
   | none => false)
  || jsLowerIncludes e.message ("timeout")
  || jsLowerIncludes e.message ("network error")
  || jsLowerIncludes e.message ("econnrefused")

/-- Result of the fulfillment-provider call in `purchaseAirtime`:
a response (possibly still pending at the provider) or a thrown error. -/
inductive ProviderCall
  | ok (isPending : Bool) (orderId : String) (providerStatusStr : String)
  | err (e : JsError)
  deriving DecidableEq, Repr

/-- The HTTP response `purchaseAirtime` sends after the provider call:
200 success, 202 "PENDING ... processing", or 502 after the refund. -/
inductive PurchaseHttp
  | success200
  | processing202
  | refunded502
  deriving DecidableEq, Repr

/-- Continuation of `purchaseAirtime` after the committed debit
(airtimeController.js lines 93-170): on a provider response, finalize the row
(or leave it PENDING when the provider reports asynchronous acceptance); on a
thrown error, keep the row PENDING with no wallet write when `isNetworkError`
classifies it as transient (lines 140-149), otherwise run the atomic
reversal and answer 502 (lines 151-169). -/
def purchaseAirtimeAfterDebit (w1 : Wallet) (txn : Txn) (call : ProviderCall) :
    Wallet × Txn × PurchaseHttp :=
  match call with
  | ProviderCall.ok isPending orderId st =>
      if isPending then
        (w1, { txn with status := TxStatus.PENDING,
                        providerReference := some orderId,
                        providerStatus := some st },
         PurchaseHttp.processing202)
      else
        (w1, { txn with status := TxStatus.SUCCESS,
                        providerReference := some orderId,
                        providerStatus := some st },
         PurchaseHttp.success200)
  | ProviderCall.err e =>
      if isNetworkError e then (w1, txn, PurchaseHttp.processing202)
      else
        let wt := reverseDebit w1 txn
        (wt.1, wt.2, PurchaseHttp.refunded502)

/-- Claim C5: a provider call failing with an error that `isNetworkError`
classifies as network/timeout leaves the transaction PENDING, keeps the
post-debit wallet values (no refund), and answers the caller with the
explicit 202 processing response. -/
theorem purchase_networkError_stays_pending (w : Wallet) (price : Int)
    (rid : String) (txns : List Txn) (e : JsError)
    (hb : price ≤ w.balance) (he : isNetworkError e = true) :
    ∃ w1 txn,
      purchaseAirtimeDebit ⟨some w, txns⟩ price rid
        = (⟨some w1, txns ++ [txn]⟩, DebitResult.debited txn) ∧
      purchaseAirtimeAfterDebit w1 txn (ProviderCall.err e)
        = (w1, txn, PurchaseHttp.processing202) ∧
      txn.status = TxStatus.PENDING ∧
      w1.balance = w.balance - price ∧
      w1.totalSpent = w.totalSpent + price := by
  refine ⟨{ balance := w.balance - price, totalSpent := w.totalSpent + price },
    { amount := price, type := TxType.AIRTIME, status := TxStatus.PENDING,
      reference := rid, providerReference := none, providerStatus := none },
    ?_, ?_, rfl, rfl, rfl⟩
  · simp [purchaseAirtimeDebit, not_lt.mpr hb]
  · simp [purchaseAirtimeAfterDebit, he]

theorem purchase_networkError_stays_pending_witness :
    (200 : Int) ≤ 1000 ∧
    isNetworkError ⟨some "ETIMEDOUT", "timeout of 15000ms exceeded"⟩ = true ∧
    ∃ w1 txn,
      purchaseAirtimeDebit ⟨some ⟨1000, 0⟩, []⟩ 200 "AIR-2"
        = (⟨some w1, [] ++ [txn]⟩, DebitResult.debited txn) ∧
      purchaseAirtimeAfterDebit w1 txn
          (ProviderCall.err ⟨some "ETIMEDOUT", "timeout of 15000ms exceeded"⟩)
        = (w1, txn, PurchaseHttp.processing202) ∧
      txn.status = TxStatus.PENDING ∧
      w1.balance = 1000 - 200 ∧
      w1.totalSpent = 0 + 200 :=
  ⟨by decide, by decide,
   purchase_networkError_stays_pending ⟨1000, 0⟩ 200 "AIR-2" []
     ⟨some "ETIMEDOUT", "timeout of 15000ms exceeded"⟩ (by decide) (by decide)⟩

/-- The raw NelloByte query response fields the sync jobs branch on. -/
structure NelloResponse where
  statuscode : String
  status : String
  orderid : Option String
  metertoken : Option String
  deriving DecidableEq, Repr

/-- `reconcileService` from the unified sync job (jobs/transactionSync.js
lines 111-144): statuscode "200" finalizes the row SUCCESS; ORDER_CANCELLED
or ORDER_FAILED runs the same atomic reversal pair as the purchase path
(status FAILED, balance incremented back, totalSpent decremented); anything
else leaves the row alone. -/
def reconcileServiceStep (txn : Txn) (w : Wallet) (result : NelloResponse) :
    Txn × Wallet :=
  if result.statuscode = "200" then
    ({ txn with status := TxStatus.SUCCESS }, w)
  else if result.status = "ORDER_CANCELLED" ∨ result.status = "ORDER_FAILED" then
    ({ txn with status := TxStatus.FAILED },
     { balance := w.balance + txn.amount, totalSpent := w.totalSpent - txn.amount })
  else (txn, w)

/-- Claim C4: a committed debit followed by the definitive-rejection reversal
(either the synchronous purchase path or the reconciliation scheduler) marks
the row FAILED and returns `balance` and `totalSpent` exactly to their
pre-purchase values: debit then reversal is a round trip. -/
theorem debit_reversal_roundtrip (w : Wallet) (price : Int) (rid : String)
    (txns : List Txn) (e : JsError) (result : NelloResponse)
    (hb : price ≤ w.balance) (he : isNetworkError e = false)
    (hr1 : result.statuscode ≠ "200")
    (hr2 : result.status = "ORDER_CANCELLED" ∨ result.status = "ORDER_FAILED") :
    ∃ w1 txn,
      purchaseAirtimeDebit ⟨some w, txns⟩ price rid
        = (⟨some w1, txns ++ [txn]⟩, DebitResult.debited txn) ∧
      txn.amount = price ∧
      purchaseAirtimeAfterDebit w1 txn (ProviderCall.err e)
        = (w, { txn with status := TxStatus.FAILED }, PurchaseHttp.refunded502) ∧
      reconcileServiceStep txn w1 result
        = ({ txn with status := TxStatus.FAILED }, w) := by
  refine ⟨{ balance := w.balance - price, totalSpent := w.totalSpent + price },
    { amount := price, type := TxType.AIRTIME, status := TxStatus.PENDING,
      reference := rid, providerReference := none, providerStatus := none },
    ?_, rfl, ?_, ?_⟩
  · simp [purchaseAirtimeDebit, not_lt.mpr hb]
  · obtain ⟨b, t⟩ := w
    simp [purchaseAirtimeAfterDebit, he, reverseDebit, Wallet.mk.injEq,
      Prod.mk.injEq]
  · obtain ⟨b, t⟩ := w
    simp [reconcileServiceStep, if_neg hr1, if_pos hr2, Wallet.mk.injEq,
      Prod.mk.injEq]

theorem debit_reversal_roundtrip_witness :
    (200 : Int) ≤ 1000 ∧
    isNetworkError ⟨none, "Invalid recipient"⟩ = false ∧
    ("300" : String) ≠ "200" ∧
    ∃ w1 txn,
      purchaseAirtimeDebit ⟨some ⟨1000, 50⟩, []⟩ 200 "AIR-3"
        = (⟨some w1, [] ++ [txn]⟩, DebitResult.debited txn) ∧
      txn.amount = 200 ∧
      purchaseAirtimeAfterDebit w1 txn
          (ProviderCall.err ⟨none, "Invalid recipient"⟩)
        = (⟨1000, 50⟩, { txn with status := TxStatus.FAILED }, PurchaseHttp.refunded502) ∧
      reconcileServiceStep txn w1 ⟨"300", "ORDER_CANCELLED", none, none⟩
        = ({ txn with status := TxStatus.FAILED }, ⟨1000, 50⟩) :=
  ⟨by decide, by decide, by decide,
   debit_reversal_roundtrip ⟨1000, 50⟩ 200 "AIR-3" []
     ⟨none, "Invalid recipient"⟩ ⟨"300", "ORDER_CANCELLED", none, none⟩
     (by decide) (by decide) (by decide) (Or.inl rfl)⟩

/-- Externally visible events of a webhook handler in order: an HTTP response
(status code, whether a body is sent) or a ledger write. -/
inductive HttpEvent
  | respond (code : Nat) (hasBody : Bool)
  | ledgerWrite
  deriving DecidableEq, Repr

/-- Event trace of `handleFlutterwaveWebhook` (webhook/paymentWebhook.js lines
23-36): if the `verif-hash` header is absent or `safeCompare` against the
configured hash fails, respond `401` via `res.status(401).end()` (no body) and
stop; otherwise `res.status(200).end()` (no body) runs before any event
classification or ledger processing.  `downstream` abstracts the events of
the processing that follows the acknowledgement. -/
def handleFlutterwaveWebhookTrace (sigPresent sigMatches : Bool)
    (downstream : List HttpEvent) : List HttpEvent :=
  if !sigPresent || !sigMatches then [HttpEvent.respond 401 false]
  else HttpEvent.respond 200 false :: downstream

/-- Event trace of `handleMonnifyWebhook` (middleware/monnifyMiddleware.js
lines 25-41): identical response protocol, with the HMAC-SHA512 comparison
as the signature check. -/
def handleMonnifyWebhookTrace (sigPresent hmacMatches : Bool)
    (downstream : List HttpEvent) : List HttpEvent :=
  if !sigPresent || !hmacMatches then [HttpEvent.respond 401 false]
  else HttpEvent.respond 200 false :: downstream

/-- Claim C6: a missing or mismatched signature yields a bare 401 with no
state mutation, and a valid signature yields an immediate bodyless 200 ahead
of all ledger processing, whatever the downstream outcome, for both the
Flutterwave and the Monnify webhook handlers. -/
theorem webhook_response_protocol (p m : Bool) (d : List HttpEvent) :
    ((p && m) = false →
        handleFlutterwaveWebhookTrace p m d = [HttpEvent.respond 401 false] ∧
        HttpEvent.ledgerWrite ∉ handleFlutterwaveWebhookTrace p m d ∧
        handleMonnifyWebhookTrace p m d = [HttpEvent.respond 401 false] ∧
        HttpEvent.ledgerWrite ∉ handleMonnifyWebhookTrace p m d) ∧
    ((p && m) = true →
        handleFlutterwaveWebhookTrace p m d = HttpEvent.respond 200 false :: d ∧
        handleMonnifyWebhookTrace p m d = HttpEvent.respond 200 false :: d) := by
  constructor
  · intro h
    cases p <;> cases m <;>
      simp_all [handleFlutterwaveWebhookTrace, handleMonnifyWebhookTrace]
  · intro h
    cases p <;> cases m <;>
      simp_all [handleFlutterwaveWebhookTrace, handleMonnifyWebhookTrace]

theorem webhook_response_protocol_witness :
    ((true && false) = false ∧
      handleFlutterwaveWebhookTrace true false [] = [HttpEvent.respond 401 false] ∧
      HttpEvent.ledgerWrite ∉ handleFlutterwaveWebhookTrace true false []) ∧
    ((true && true) = true ∧
      handleFlutterwaveWebhookTrace true true [HttpEvent.ledgerWrite]
        = HttpEvent.respond 200 false :: [HttpEvent.ledgerWrite]) :=
  ⟨⟨by decide,
    ((webhook_response_protocol true false []).1 (by decide)).1,
    ((webhook_response_protocol true false []).1 (by decide)).2.1⟩,
   ⟨by decide,
    ((webhook_response_protocol true true [HttpEvent.ledgerWrite]).2 (by decide)).1⟩⟩

/-- The list of service transaction types the NelloByte status job selects
(src/unnamed/part_011 lines 26-35). -/
def nelloServiceTypes : List TxType :=
  [TxType.DATA, TxType.AIRTIME, TxType.ELECTRICITY, TxType.CABLE_TV,
   TxType.EDUCATION, TxType.RECHARGE_PIN]

/-- The NelloByte status job's selection criteria (src/unnamed/part_011 lines
18-42): providerStatus ORDER_RECEIVED or TXN_HISTORY, or status PENDING or
FAILED; a service type; created within the past 3 days. -/
def nelloByteSelects (txn : Txn) (ageMs : Nat) : Bool :=
  (txn.providerStatus == some ("ORDER_RECEIVED")
    || txn.providerStatus == some ("TXN_HISTORY")
    || txn.status == TxStatus.PENDING
    || txn.status == TxStatus.FAILED)
  && nelloServiceTypes.contains txn.type
  && ageMs ≤ 3 * 24 * 60 * 60 * 1000

/-- One NelloByte status-job iteration for one transaction
(src/unnamed/part_011 lines 62-135).  On statuscode "200" with
ORDER_COMPLETED, one atomic `prisma.$transaction` batch sets the row SUCCESS
(recording the provider order id) and, when the row was previously FAILED
(hence already refunded), re-debits the wallet: balance decremented and
totalSpent incremented by the amount.  On ORDER_CANCELLED, ORDER_FAILED or
MISSING_ORDERID, a not-yet-FAILED/REVERSED row is atomically failed and
refunded; an already FAILED or REVERSED row only has its providerStatus
updated. -/
def nelloByteStatusStep (txn : Txn) (w : Wallet) (data : NelloResponse) :
    Txn × Wallet :=
  if data.statuscode = "200" ∧ data.status = "ORDER_COMPLETED" then
    let txn1 : Txn :=
      { txn with
        status := TxStatus.SUCCESS,
        providerStatus := some ("ORDER_COMPLETED"),
        providerReference :=
          match data.orderid with
          | some oid => some oid
          | none => txn.providerReference }
    if txn.status = TxStatus.FAILED then
      (txn1, { balance := w.balance - txn.amount,
               totalSpent := w.totalSpent + txn.amount })
    else (txn1, w)
  else if data.status = "ORDER_CANCELLED" ∨ data.status = "ORDER_FAILED"
      ∨ data.status = "MISSING_ORDERID" then
    if txn.status ≠ TxStatus.FAILED ∧ txn.status ≠ TxStatus.REVERSED then
      ({ txn with status := TxStatus.FAILED, providerStatus := some data.status },
       { balance := w.balance + txn.amount, totalSpent := w.totalSpent - txn.amount })
    else ({ txn with providerStatus := some data.status }, w)
  else (txn, w)

/-- Claim C7: a FAILED (already refunded) service transaction that the
provider later reports ORDER_COMPLETED is selected by the job and corrected
in one atomic batch: status becomes SUCCESS, the wallet balance is
decremented by the amount and totalSpent incremented by the same amount. -/
theorem nelloByte_failed_corrected_to_success (txn : Txn) (w : Wallet)
    (data : NelloResponse) (ageMs : Nat)
    (hty : txn.type ∈ nelloServiceTypes)
    (hage : ageMs ≤ 3 * 24 * 60 * 60 * 1000)
    (hf : txn.status = TxStatus.FAILED)
    (hc : data.statuscode = "200")
    (ho : data.status = "ORDER_COMPLETED") :
    nelloByteSelects txn ageMs = true ∧
    (nelloByteStatusStep txn w data).1.status = TxStatus.SUCCESS ∧
    (nelloByteStatusStep txn w data).2.balance = w.balance - txn.amount ∧
    (nelloByteStatusStep txn w data).2.totalSpent = w.totalSpent + txn.amount := by
  have hcon : nelloServiceTypes.contains txn.type = true := by
    revert hty
    cases txn.type <;> decide
  refine ⟨?_, ?_⟩
  · simp [nelloByteSelects, hf, hage, hcon]
    exact hty
  · simp [nelloByteStatusStep, hc, ho, hf]

theorem nelloByte_failed_corrected_to_success_witness :
    TxType.DATA ∈ nelloServiceTypes ∧
    (1000000 : Nat) ≤ 3 * 24 * 60 * 60 * 1000 ∧
    (nelloByteSelects
        ⟨500, TxType.DATA, TxStatus.FAILED, "DATA-1", none, none⟩ 1000000 = true ∧
      (nelloByteStatusStep ⟨500, TxType.DATA, TxStatus.FAILED, "DATA-1", none, none⟩
          ⟨2000, 100⟩ ⟨"200", "ORDER_COMPLETED", some ("ord-9"), none⟩).1.status
        = TxStatus.SUCCESS ∧
      (nelloByteStatusStep ⟨500, TxType.DATA, TxStatus.FAILED, "DATA-1", none, none⟩
          ⟨2000, 100⟩ ⟨"200", "ORDER_COMPLETED", some ("ord-9"), none⟩).2.balance
        = 2000 - 500 ∧
      (nelloByteStatusStep ⟨500, TxType.DATA, TxStatus.FAILED, "DATA-1", none, none⟩
          ⟨2000, 100⟩ ⟨"200", "ORDER_COMPLETED", some ("ord-9"), none⟩).2.totalSpent
        = 100 + 500) :=
  ⟨by decide, by decide,
   nelloByte_failed_corrected_to_success
     ⟨500, TxType.DATA, TxStatus.FAILED, "DATA-1", none, none⟩ ⟨2000, 100⟩
     ⟨"200", "ORDER_COMPLETED", some ("ord-9"), none⟩ 1000000
     (by decide) (by decide) rfl rfl rfl⟩

/-- Normalized gateway verification outcome as the funding sync jobs branch
on it: a successful payment (with the gateway id), a definitive non-success
status, a 404 not-found error, or any other error. -/
inductive GatewayVerify
  | successful (amount : Int) (gatewayId : String)
  | failedStatus (s : String)
  | notFound
  | otherError
  deriving DecidableEq, Repr

/-- The staleness window shared by the funding sync jobs: both select
PENDING rows with `createdAt < new Date(Date.now() - 2 * 60 * 1000)`. -/
def fundingSyncStalenessMs : Nat := 2 * 60 * 1000

/-- The Monnify sync job's selection criteria
(dist/jobs/monnifyTransactionSync.js lines 18-27): WALLET_FUNDING rows in
PENDING strictly older than the two-minute staleness window. -/
def monnifySyncSelects (txn : Txn) (ageMs : Nat) : Bool :=
  txn.type == TxType.WALLET_FUNDING
  && txn.status == TxStatus.PENDING
  && fundingSyncStalenessMs < ageMs

/-- One Monnify sync iteration for one selected transaction
(dist/jobs/monnifyTransactionSync.js lines 33-92): on verified success,
atomically credit the stored principal and set SUCCESS if still PENDING;
on failed/expired/cancelled, set FAILED; on a 404 (checkout never opened),
set FAILED; both of the latter without any wallet write; other errors are
logged and change nothing. -/
def monnifySyncStep (txn : Txn) (w : Wallet) (v : GatewayVerify) : Txn × Wallet :=
  match v with
  | GatewayVerify.successful _ gid =>
      if txn.status = TxStatus.PENDING then
        ({ txn with status := TxStatus.SUCCESS, providerReference := some gid },
         { w with balance := w.balance + txn.amount })
      else (txn, w)
  | GatewayVerify.failedStatus _ => ({ txn with status := TxStatus.FAILED }, w)
  | GatewayVerify.notFound => ({ txn with status := TxStatus.FAILED }, w)
  | GatewayVerify.otherError => (txn, w)

/-- The Paystack sync job's 404 branch (jobs/paystackTransactionSync.js lines
95-102): `console.log` only — no transaction write and no wallet write. -/
def paystackSyncNotFoundStep (txn : Txn) (w : Wallet) : Txn × Wallet := (txn, w)

/-- Whether the Monnify sync marks a given transaction FAILED on a
not-found verification at a given age: the row must be selected by the
sweep, and the not-found branch must leave it FAILED. -/
def monnifyMarksFailedOnNotFound (txn : Txn) (w : Wallet) (ageMs : Nat) : Bool :=
  monnifySyncSelects txn ageMs
  && (monnifySyncStep txn w GatewayVerify.notFound).1.status == TxStatus.FAILED

/-- Claim C8 counterexample: there is no abandonment window strictly longer
than the ordinary two-minute staleness window gating the not-found FAILED
marking — the Monnify sync fails a PENDING funding row one millisecond past
the ordinary window, as witnessed at age 120001 ms. -/
theorem monnify_notFound_no_longer_window :
    ¬ ∃ abandonMs : Nat, fundingSyncStalenessMs < abandonMs ∧
      ∀ (txn : Txn) (w : Wallet) (ageMs : Nat),
        monnifyMarksFailedOnNotFound txn w ageMs = true → abandonMs < ageMs := by
  rintro ⟨abandonMs, hgt, h⟩
  have hmark : monnifyMarksFailedOnNotFound
      ⟨1000, TxType.WALLET_FUNDING, TxStatus.PENDING, "FUND-MNFY-1", none, none⟩
      ⟨0, 0⟩ 120001 = true := by decide
  have := h _ _ 120001 hmark
  have hs : fundingSyncStalenessMs = 120000 := rfl
  omega

/-- Claim C8 as amended: on not-found the Monnify sync marks the funding
transaction FAILED with no wallet mutation, and it does so for any selected
PENDING funding row — i.e. exactly when the row is older than the same
two-minute staleness window used for every pending funding row, with no
separate longer abandonment window; the Paystack sync's not-found branch
performs no write at all, leaving the row PENDING. -/
theorem monnify_notFound_failed_no_refund (txn : Txn) (w : Wallet) (ageMs : Nat)
    (hty : txn.type = TxType.WALLET_FUNDING)
    (hst : txn.status = TxStatus.PENDING) :
    (monnifySyncStep txn w GatewayVerify.notFound).1.status = TxStatus.FAILED ∧
    (monnifySyncStep txn w GatewayVerify.notFound).2 = w ∧
    (monnifySyncSelects txn ageMs = true ↔ fundingSyncStalenessMs < ageMs) ∧
    paystackSyncNotFoundStep txn w = (txn, w) := by
  refine ⟨rfl, rfl, ?_, rfl⟩
  simp [monnifySyncSelects, hty, hst]

theorem monnify_notFound_failed_no_refund_witness :
    (monnifySyncStep
        ⟨1000, TxType.WALLET_FUNDING, TxStatus.PENDING, "FUND-MNFY-2", none, none⟩
        ⟨700, 0⟩ GatewayVerify.notFound).1.status = TxStatus.FAILED ∧
    (monnifySyncStep
        ⟨1000, TxType.WALLET_FUNDING, TxStatus.PENDING, "FUND-MNFY-2", none, none⟩
        ⟨700, 0⟩ GatewayVerify.notFound).2 = ⟨700, 0⟩ ∧
    (monnifySyncSelects
        ⟨1000, TxType.WALLET_FUNDING, TxStatus.PENDING, "FUND-MNFY-2", none, none⟩
        120001 = true ↔ fundingSyncStalenessMs < 120001) ∧
    paystackSyncNotFoundStep
        ⟨1000, TxType.WALLET_FUNDING, TxStatus.PENDING, "FUND-MNFY-2", none, none⟩
        ⟨700, 0⟩
      = (⟨1000, TxType.WALLET_FUNDING, TxStatus.PENDING, "FUND-MNFY-2", none, none⟩,
         ⟨700, 0⟩) :=
  monnify_notFound_failed_no_refund
    ⟨1000, TxType.WALLET_FUNDING, TxStatus.PENDING, "FUND-MNFY-2", none, none⟩
    ⟨700, 0⟩ 120001 rfl rfl

/-- The gateway's verification verdict for one funding reference.  Both the
webhook and the scheduler re-verify against the gateway before mutating
(`paymentProvider.verifyTransaction`); the verdict is a property of the
reference and is the same for every finalization attempt on it. -/
inductive Verdict
  | successful
  | failed
  | stillPending
  deriving DecidableEq, Repr

/-- The two finalizers that can race on one existing funding transaction:
a Flutterwave webhook delivery (update flow) and a scheduler sweep
(`reconcileFunding`). -/
inductive Finalizer
  | webhook
  | scheduler
  deriving DecidableEq, Repr

/-- Classified outcome of one finalization attempt: it credited the wallet,
it was suppressed as a duplicate, it ignored the event (verification not
successful, or zero credit), or it marked the row FAILED.  There is no error
outcome: a lost race is not an error. -/
inductive FinOutcome
  | credited
  | suppressed
  | ignored
  | markedFailed
  deriving DecidableEq, Repr

/-- The ledger slice a funding finalizer touches: the transaction's status
and the owner wallet balance. -/
structure FundState where
  status : TxStatus
  balance : Int
  deriving DecidableEq, Repr

/-- One Flutterwave webhook delivery for an existing FUND- transaction
(webhook/paymentWebhook.js lines 60-65, 114-141, 173-183): after
re-verification (return unless successful), compute the credit via the fee
policy (return if not positive), then inside one prisma transaction run
`updateMany` guarded by `status: { not: SUCCESS } }`; if it matched, set
SUCCESS and increment the wallet by the credit; if it matched nothing, the
duplicate is suppressed with no wallet write. -/
def webhookUpdateStep (v : Verdict) (amount : Int) (s : FundState) :
    FundState × FinOutcome :=
  if v ≠ Verdict.successful then (s, FinOutcome.ignored)
  else
    let walletCreditAmount := getWalletCreditAmount amount
    if walletCreditAmount ≤ 0 then (s, FinOutcome.ignored)
    else if s.status ≠ TxStatus.SUCCESS then
      ({ status := TxStatus.SUCCESS, balance := s.balance + walletCreditAmount },
       FinOutcome.credited)
    else (s, FinOutcome.suppressed)

/-- One scheduler sweep on the same transaction (`reconcileFunding`,
jobs/transactionSync.js lines 72-106): on a successful verdict, inside one
prisma transaction re-read the row and exit silently unless still PENDING,
else credit the fee-policy amount and set SUCCESS; on a failed verdict, set
FAILED with no wallet write; otherwise do nothing. -/
def reconcileFundingStep (v : Verdict) (amount : Int) (s : FundState) :
    FundState × FinOutcome :=
  match v with
  | Verdict.successful =>
      if s.status = TxStatus.PENDING then
        ({ status := TxStatus.SUCCESS,
           balance := s.balance + getWalletCreditAmount amount },
         FinOutcome.credited)
      else (s, FinOutcome.suppressed)
  | Verdict.failed =>
      ({ status := TxStatus.FAILED, balance := s.balance }, FinOutcome.markedFailed)
  | Verdict.stillPending => (s, FinOutcome.ignored)

/-- Dispatch one finalization attempt.  Each attempt's database transaction
is atomic at the storage layer, so interleavings are modelled as an
arbitrary sequence of whole steps. -/
def finalizeStep (v : Verdict) (amount : Int) (a : Finalizer) (s : FundState) :
    FundState × FinOutcome :=
  match a with
  | Finalizer.webhook => webhookUpdateStep v amount s
  | Finalizer.scheduler => reconcileFundingStep v amount s

/-- A run of finalization attempts with ghost accounting: the evolving
state, how many attempts credited the wallet, how many attempts moved the
row out of PENDING, and the outcome log. -/
structure FundRun where
  state : FundState
  credits : Nat
  pendingMoves : Nat
  outcomes : List FinOutcome
  deriving DecidableEq, Repr

/-- Execute one attempt and record its ghost accounting. -/
def recordStep (v : Verdict) (amount : Int) (r : FundRun) (a : Finalizer) :
    FundRun :=
  let so := finalizeStep v amount a r.state
  { state := so.1,
    credits := r.credits + (if so.2 = FinOutcome.credited then 1 else 0),
    pendingMoves := r.pendingMoves +
      (if r.state.status = TxStatus.PENDING ∧ so.1.status ≠ TxStatus.PENDING
       then 1 else 0),
    outcomes := r.outcomes ++ [so.2] }

/-- Run an arbitrary interleaving of webhook deliveries and scheduler sweeps
on one funding transaction. -/
def runFinalizers (v : Verdict) (amount : Int) (attempts : List Finalizer)
    (s0 : FundState) : FundRun :=
  attempts.foldl (recordStep v amount) ⟨s0, 0, 0, []⟩

/-- The ledger slice of the virtual-account create flow: whether a row with
this provider reference already exists (the uniqueness constraint), and the
wallet balance. -/
structure VAState where
  processed : Bool
  balance : Int
  deriving DecidableEq, Repr

/-- One webhook delivery in the virtual-account create flow
(webhook/paymentWebhook.js lines 143-183): after verification and the
positive-credit guard, attempt the `create` with the unique
`providerReference`; a P2002 uniqueness violation is suppressed as a
duplicate with no wallet write; a fresh create is followed by the wallet
credit in the same prisma transaction. -/
def vaCreateStep (v : Verdict) (amount : Int) (s : VAState) :
    VAState × FinOutcome :=
  if v ≠ Verdict.successful then (s, FinOutcome.ignored)
  else
    let walletCreditAmount := getWalletCreditAmount amount
    if walletCreditAmount ≤ 0 then (s, FinOutcome.ignored)
    else if s.processed then (s, FinOutcome.suppressed)
    else ({ processed := true, balance := s.balance + walletCreditAmount },
          FinOutcome.credited)

/-- Run `n` identical virtual-account webhook deliveries; returns the final
state and the number of deliveries that credited the wallet. -/
def runVirtualAccountDeliveries (v : Verdict) (amount : Int) :
    Nat → VAState → VAState × Nat
  | 0, s => (s, 0)
  | Nat.succ n, s =>
      let so := vaCreateStep v amount s
      let rest := runVirtualAccountDeliveries v amount n so.1
      (rest.1, rest.2 + (if so.2 = FinOutcome.credited then 1 else 0))

theorem foldl_invariant {α β : Type} {P : β → Prop} {f : β → α → β}
    (hf : ∀ b a, P b → P (f b a)) :
    ∀ (l : List α) (b : β), P b → P (l.foldl f b)
  | [], _, hb => hb
  | a :: l, b, hb => foldl_invariant hf l (f b a) (hf b a hb)

theorem runFold_outcomes_length (v : Verdict) (amount : Int) :
    ∀ (l : List Finalizer) (r : FundRun),
      (l.foldl (recordStep v amount) r).outcomes.length
        = r.outcomes.length + l.length
  | [], r => by simp
  | a :: l, r => by
      rw [List.foldl_cons, runFold_outcomes_length v amount l]
      simp [recordStep]
      omega

/-- Invariant of a successful-verdict run started on a PENDING row: either
nothing has run yet, or exactly one attempt credited and every attempt was
credited-or-suppressed. -/
def SuccInv (c b : Int) (r : FundRun) : Prop :=
  (r.state.status = TxStatus.PENDING ∧ r.credits = 0 ∧ r.pendingMoves = 0 ∧
     r.state.balance = b ∧ r.outcomes = [])
  ∨ (r.state.status = TxStatus.SUCCESS ∧ r.credits = 1 ∧ r.pendingMoves = 1 ∧
     r.state.balance = b + c ∧
     ∀ o ∈ r.outcomes, o = FinOutcome.credited ∨ o = FinOutcome.suppressed)

theorem succInv_step (amount b : Int) (hc : 0 < getWalletCreditAmount amount)
    (r : FundRun) (a : Finalizer)
    (h : SuccInv (getWalletCreditAmount amount) b r) :
    SuccInv (getWalletCreditAmount amount) b
      (recordStep Verdict.successful amount r a) := by
  have hcle : ¬ getWalletCreditAmount amount ≤ 0 := not_le.mpr hc
  rcases h with ⟨h1, h2, h3, h4, h5⟩ | ⟨h1, h2, h3, h4, h5⟩
  · have hstep : finalizeStep Verdict.successful amount a r.state
        = ({ status := TxStatus.SUCCESS,
             balance := r.state.balance + getWalletCreditAmount amount },
           FinOutcome.credited) := by
      cases a
      · simp [finalizeStep, webhookUpdateStep, hcle, h1]
      · simp [finalizeStep, reconcileFundingStep, h1]
    right
    refine ⟨?_, ?_, ?_, ?_, ?_⟩ <;>
      simp [recordStep, hstep, h1, h2, h3, h4, h5]
  · have hstep : finalizeStep Verdict.successful amount a r.state
        = (r.state, FinOutcome.suppressed) := by
      cases a
      · simp [finalizeStep, webhookUpdateStep, hcle, h1]
      · simp [finalizeStep, reconcileFundingStep, h1]
    right
    refine ⟨?_, ?_, ?_, ?_, ?_⟩
    · simp [recordStep, hstep, h1]
    · simp [recordStep, hstep, h2]
    · simp [recordStep, hstep, h1, h3]
    · simp [recordStep, hstep, h4]
    · simp only [recordStep, hstep]
      intro o ho
      rcases List.mem_append.mp ho with hm | hm
      · exact h5 o hm
      · simp at hm
        subst hm
        right
        rfl

/-- Invariant of a failed-verdict run started on a PENDING row: nothing
credits, the balance never moves, and at most one attempt left PENDING. -/
def FailInv (b : Int) (r : FundRun) : Prop :=
  r.credits = 0 ∧ r.state.balance = b ∧ r.pendingMoves ≤ 1 ∧
  (r.state.status = TxStatus.PENDING → r.pendingMoves = 0) ∧
  (r.state.status = TxStatus.PENDING ∨ r.state.status = TxStatus.FAILED)

theorem failInv_step (amount b : Int) (r : FundRun) (a : Finalizer)
    (h : FailInv b r) :
    FailInv b (recordStep Verdict.failed amount r a) := by
  obtain ⟨h1, h2, h3, h4, h5⟩ := h
  cases a
  · simp_all [recordStep, finalizeStep, webhookUpdateStep, FailInv]
  · rcases h5 with h5 | h5 <;>
      simp_all [recordStep, finalizeStep, reconcileFundingStep, FailInv]

/-- Invariant of a still-pending-verdict run: every attempt is a no-op. -/
def StillInv (b : Int) (r : FundRun) : Prop :=
  r.state = ⟨TxStatus.PENDING, b⟩ ∧ r.credits = 0 ∧ r.pendingMoves = 0

theorem stillInv_step (amount b : Int) (r : FundRun) (a : Finalizer)
    (h : StillInv b r) :
    StillInv b (recordStep Verdict.stillPending amount r a) := by
  obtain ⟨h1, h2, h3⟩ := h
  cases a <;>
    simp_all [recordStep, finalizeStep, webhookUpdateStep,
      reconcileFundingStep, StillInv]

theorem finalizeStep_not_credited_balance (v : Verdict) (amount : Int)
    (a : Finalizer) (s : FundState)
    (h : (finalizeStep v amount a s).2 ≠ FinOutcome.credited) :
    (finalizeStep v amount a s).1.balance = s.balance := by
  cases a <;> cases v <;>
    simp only [finalizeStep, webhookUpdateStep, reconcileFundingStep] at h ⊢ <;>
    split_ifs at h ⊢ <;> simp_all

theorem runVA_not_successful (v : Verdict) (amount : Int)
    (hv : v ≠ Verdict.successful) (n : Nat) :
    ∀ s : VAState, runVirtualAccountDeliveries v amount n s = (s, 0) := by
  induction n with
  | zero => intro s; rfl
  | succ n ih =>
      intro s
      simp [runVirtualAccountDeliveries, vaCreateStep, hv, ih]

theorem runVA_processed (amount : Int) (n : Nat) :
    ∀ s : VAState, s.processed = true →
      runVirtualAccountDeliveries Verdict.successful amount n s = (s, 0) := by
  induction n with
  | zero => intro s _; rfl
  | succ n ih =>
      intro s hs
      by_cases hcle : getWalletCreditAmount amount ≤ 0
      · simp [runVirtualAccountDeliveries, vaCreateStep, hcle, ih s hs]
      · simp [runVirtualAccountDeliveries, vaCreateStep, hcle, hs, ih s hs]

/-- Claim C1: for any interleaving of webhook deliveries and scheduler
sweeps finalizing one PENDING funding transaction (same reference, hence a
fixed gateway verdict and fee-policy credit): at most one attempt moves the
row out of PENDING; at most one attempt credits, and the balance reflects
the credit exactly as many times as an attempt credited; if the gateway
verdict is successful, any nonempty interleaving credits exactly once, and
every attempt is either the one credit or a suppressed duplicate (never an
error); if the verdict is not successful, nothing is ever credited; any
attempt that does not credit leaves the balance untouched; and the
virtual-account create flow (uniqueness constraint as lock) credits exactly
once across any number of duplicate deliveries. -/
theorem funding_finalization_exactly_once (amount b : Int) (v : Verdict)
    (attempts : List Finalizer) (n : Nat)
    (hc : 0 < getWalletCreditAmount amount) :
    (runFinalizers v amount attempts ⟨TxStatus.PENDING, b⟩).pendingMoves ≤ 1 ∧
    (runFinalizers v amount attempts ⟨TxStatus.PENDING, b⟩).credits ≤ 1 ∧
    (runFinalizers v amount attempts ⟨TxStatus.PENDING, b⟩).state.balance
      = b + getWalletCreditAmount amount
          * ((runFinalizers v amount attempts ⟨TxStatus.PENDING, b⟩).credits : Int) ∧
    (v = Verdict.successful → attempts ≠ [] →
      (runFinalizers v amount attempts ⟨TxStatus.PENDING, b⟩).credits = 1) ∧
    (v ≠ Verdict.successful →
      (runFinalizers v amount attempts ⟨TxStatus.PENDING, b⟩).credits = 0) ∧
    (v = Verdict.successful →
      ∀ o ∈ (runFinalizers v amount attempts ⟨TxStatus.PENDING, b⟩).outcomes,
        o = FinOutcome.credited ∨ o = FinOutcome.suppressed) ∧
    (∀ (a : Finalizer) (s : FundState),
      (finalizeStep v amount a s).2 ≠ FinOutcome.credited →
      (finalizeStep v amount a s).1.balance = s.balance) ∧
    (runVirtualAccountDeliveries v amount n ⟨false, b⟩).2 ≤ 1 ∧
    (runVirtualAccountDeliveries v amount n ⟨false, b⟩).1.balance
      = b + getWalletCreditAmount amount
          * ((runVirtualAccountDeliveries v amount n ⟨false, b⟩).2 : Int) ∧
    (v = Verdict.successful → 0 < n →
      (runVirtualAccountDeliveries v amount n ⟨false, b⟩).2 = 1) := by
  have hcle : ¬ getWalletCreditAmount amount ≤ 0 := not_le.mpr hc
  have hlen : (runFinalizers v amount attempts ⟨TxStatus.PENDING, b⟩).outcomes.length
      = attempts.length := by
    have := runFold_outcomes_length v amount attempts
      ⟨⟨TxStatus.PENDING, b⟩, 0, 0, []⟩
    simpa [runFinalizers] using this
  have hva : (runVirtualAccountDeliveries v amount n ⟨false, b⟩).2 ≤ 1 ∧
      (runVirtualAccountDeliveries v amount n ⟨false, b⟩).1.balance
        = b + getWalletCreditAmount amount
            * ((runVirtualAccountDeliveries v amount n ⟨false, b⟩).2 : Int) ∧
      (v = Verdict.successful → 0 < n →
        (runVirtualAccountDeliveries v amount n ⟨false, b⟩).2 = 1) := by
    by_cases hv : v = Verdict.successful
    · subst hv
      cases n with
      | zero => simp [runVirtualAccountDeliveries]
      | succ m =>
          have hstep : vaCreateStep Verdict.successful amount ⟨false, b⟩
              = (⟨true, b + getWalletCreditAmount amount⟩, FinOutcome.credited) := by
            simp [vaCreateStep, hcle]
          have hrun : runVirtualAccountDeliveries Verdict.successful amount
              (Nat.succ m) ⟨false, b⟩
              = (⟨true, b + getWalletCreditAmount amount⟩, 1) := by
            simp [runVirtualAccountDeliveries, hstep,
              runVA_processed amount m ⟨true, b + getWalletCreditAmount amount⟩ rfl]
          rw [hrun]
          simp
    · rw [runVA_not_successful v amount hv n ⟨false, b⟩]
      simp [hv]
  cases v with
  | successful =>
      have hinv : SuccInv (getWalletCreditAmount amount) b
          (runFinalizers Verdict.successful amount attempts ⟨TxStatus.PENDING, b⟩) := by
        exact foldl_invariant (succInv_step amount b hc) attempts
          ⟨⟨TxStatus.PENDING, b⟩, 0, 0, []⟩
          (Or.inl ⟨rfl, rfl, rfl, rfl, rfl⟩)
      rcases hinv with ⟨h1, h2, h3, h4, h5⟩ | ⟨h1, h2, h3, h4, h5⟩
      · refine ⟨by simp [h3], by simp [h2], by rw [h2, h4]; simp, ?_, by simp,
          ?_, ?_, hva⟩
        · intro _ hne
          exfalso
          rw [h5] at hlen
          exact hne (List.eq_nil_of_length_eq_zero hlen.symm)
        · intro _ o ho
          rw [h5] at ho
          simp at ho
        · intro a s h
          exact finalizeStep_not_credited_balance Verdict.successful amount a s h
      · refine ⟨by simp [h3], by simp [h2], by rw [h2, h4]; simp, ?_, by simp,
          ?_, ?_, hva⟩
        · intro _ _
          exact h2
        · intro _ o ho
          exact h5 o ho
        · intro a s h
          exact finalizeStep_not_credited_balance Verdict.successful amount a s h
  | failed =>
      have hinv : FailInv b
          (runFinalizers Verdict.failed amount attempts ⟨TxStatus.PENDING, b⟩) := by
        exact foldl_invariant (failInv_step amount b) attempts
          ⟨⟨TxStatus.PENDING, b⟩, 0, 0, []⟩
          ⟨rfl, rfl, Nat.zero_le 1, fun _ => rfl, Or.inl rfl⟩
      obtain ⟨h1, h2, h3, h4, h5⟩ := hinv
      refine ⟨h3, by simp [h1], by rw [h1, h2]; simp, by simp, fun _ => h1,
        by simp, ?_, hva⟩
      intro a s h
      exact finalizeStep_not_credited_balance Verdict.failed amount a s h
  | stillPending =>
      have hinv : StillInv b
          (runFinalizers Verdict.stillPending amount attempts ⟨TxStatus.PENDING, b⟩) := by
        exact foldl_invariant (stillInv_step amount b) attempts
          ⟨⟨TxStatus.PENDING, b⟩, 0, 0, []⟩ ⟨rfl, rfl, rfl⟩
      obtain ⟨h1, h2, h3⟩ := hinv
      refine ⟨by simp [h3], by simp [h2], by rw [h2, h1]; simp, by simp,
        fun _ => h2, by simp, ?_, hva⟩
      intro a s h
      exact finalizeStep_not_credited_balance Verdict.stillPending amount a s h

theorem funding_finalization_exactly_once_witness :
    0 < getWalletCreditAmount 2000 ∧
    ((runFinalizers Verdict.successful 2000
        [Finalizer.webhook, Finalizer.scheduler, Finalizer.webhook]
        ⟨TxStatus.PENDING, 0⟩).pendingMoves ≤ 1 ∧
      (runFinalizers Verdict.successful 2000
        [Finalizer.webhook, Finalizer.scheduler, Finalizer.webhook]
        ⟨TxStatus.PENDING, 0⟩).credits ≤ 1 ∧
      (runFinalizers Verdict.successful 2000
        [Finalizer.webhook, Finalizer.scheduler, Finalizer.webhook]
        ⟨TxStatus.PENDING, 0⟩).state.balance
        = 0 + getWalletCreditAmount 2000
            * ((runFinalizers Verdict.successful 2000
                [Finalizer.webhook, Finalizer.scheduler, Finalizer.webhook]
                ⟨TxStatus.PENDING, 0⟩).credits : Int) ∧
      (Verdict.successful = Verdict.successful →
        [Finalizer.webhook, Finalizer.scheduler, Finalizer.webhook] ≠ [] →
        (runFinalizers Verdict.successful 2000
          [Finalizer.webhook, Finalizer.scheduler, Finalizer.webhook]
          ⟨TxStatus.PENDING, 0⟩).credits = 1) ∧
      (Verdict.successful ≠ Verdict.successful →
        (runFinalizers Verdict.successful 2000
          [Finalizer.webhook, Finalizer.scheduler, Finalizer.webhook]
          ⟨TxStatus.PENDING, 0⟩).credits = 0) ∧
      (Verdict.successful = Verdict.successful →
        ∀ o ∈ (runFinalizers Verdict.successful 2000
            [Finalizer.webhook, Finalizer.scheduler, Finalizer.webhook]
            ⟨TxStatus.PENDING, 0⟩).outcomes,
          o = FinOutcome.credited ∨ o = FinOutcome.suppressed) ∧
      (∀ (a : Finalizer) (s : FundState),
        (finalizeStep Verdict.successful 2000 a s).2 ≠ FinOutcome.credited →
        (finalizeStep Verdict.successful 2000 a s).1.balance = s.balance) ∧
      (runVirtualAccountDeliveries Verdict.successful 2000 2 ⟨false, 0⟩).2 ≤ 1 ∧
      (runVirtualAccountDeliveries Verdict.successful 2000 2 ⟨false, 0⟩).1.balance
        = 0 + getWalletCreditAmount 2000
            * ((runVirtualAccountDeliveries Verdict.successful 2000 2 ⟨false, 0⟩).2 : Int) ∧
      (Verdict.successful = Verdict.successful → 0 < 2 →
        (runVirtualAccountDeliveries Verdict.successful 2000 2 ⟨false, 0⟩).2 = 1)) :=
  ⟨by decide,
   funding_finalization_exactly_once 2000 0 Verdict.successful
     [Finalizer.webhook, Finalizer.scheduler, Finalizer.webhook] 2 (by decide)⟩

end DataAppBack
